import Mathlib

/-!
Verification of the helper functions defined in
`notebooks/AzureOpenAI_OnYourData_Elasticsearch.ipynb`:

* `SampleCsvDatasets.get_dataframe` and
  `SampleCsvDatasets.get_dataframe_with_aoai_embeddings` (the embedding
  batcher with retry),
* `create_index` (delete-then-create index management),
* `index_data` (chunked bulk loading),
* `chat_with_my_data` (query-mode selection for the chat request).

Pure control flow and data flow are embedded directly; network calls are
abstracted as oracle functions (`provider`), and the two blocking sleeps of
the batcher (`sleep(throttling_interval)` and `sleep(5)`) are embedded as
counters so that the number of pauses is observable.
-/

/-! ## Python name resolution

Several code paths in the notebook reference identifiers that are bound
neither in the local scope of the enclosing function nor at notebook global
scope.  To settle those claims we record the set of names assigned at the
top level of any notebook cell (imports and assignments), and resolve a
name the way CPython does for a function body: local scope first, then the
module (notebook) globals.  None of the names queried below (`name`,
`openapi`, `text_embeddings_column_name`) is a Python builtin.
-/

/-- Every identifier bound at the top level of some cell of the notebook:
imports (cells 5, 7, 13, 27, 31) and plain assignments (cells 5, 7, 9, 11,
13, 15, 17, 21, 27, 29, 31, 35, 37, 41). -/
def notebookGlobalNames : List String :=
  ["math", "np", "pd", "statistics", "StringIO", "sleep", "perf_counter",
   "urlopen", "SampleCsvDatasets", "create_index", "index_data",
   "chat_with_my_data", "getpass", "openai", "Elasticsearch",
   "elasticsearch_endpoint", "elasticsearch_api_key",
   "chat_model_deployment_name", "embedding_model_deployment_name",
   "datasets", "elastic_client", "Session", "HTTPAdapter",
   "OnYourDataAdapter", "session", "elasticsearch_index_name",
   "mapping_properties", "dataframe", "chat_query", "IngestClient",
   "pipeline_id", "ingest_processors", "on_failure", "ingest_client",
   "elasticsearch_embeddings_index_name", "reindex_source", "reindex_dest",
   "response", "is_completed", "task", "aoai_embeddings_index_name"]

/-- CPython name resolution for an identifier used inside a function body:
the identifier resolves iff it is a local of the function or a notebook
global.  (Builtins are irrelevant for the three names queried here.) -/
def resolvesName (locals : List String) (n : String) : Bool :=
  locals.contains n || notebookGlobalNames.contains n

/-! ## `np.array_split`

`get_dataframe_with_aoai_embeddings` partitions the dataframe with
`np.array_split(df, number_of_buckets)`.  NumPy splits a length-`l`
sequence into `n` contiguous parts whose sizes are as equal as possible:
the first `l % n` parts have size `l / n + 1` and the remaining parts
have size `l / n`. -/

/-- Section sizes produced by `np.array_split` for total length `l` and
`n` sections (`divmod`-based: `extras` sections of `Neach_section + 1`
followed by sections of `Neach_section`). -/
def arraySplitSizes (l n : Nat) : List Nat :=
  (List.range n).map fun i => if i < l % n then l / n + 1 else l / n

/-- Cut a list into consecutive pieces of the given sizes. -/
def splitBySizes : List Nat → List α → List (List α)
  | [], _ => []
  | s :: ss, xs => xs.take s :: splitBySizes ss (xs.drop s)

/-- `np.array_split(xs, n)`: contiguous, order-preserving, balanced
sections. -/
def arraySplit (xs : List α) (n : Nat) : List (List α) :=
  splitBySizes (arraySplitSizes xs.length n) xs

/-! ## The embedding batcher (`get_dataframe_with_aoai_embeddings`) -/

/-- `maximum_batch_size = 16` from the source ("16 is the current maximum
batch size for embeddings"). -/
def maximum_batch_size : Nat := 16

/-- `retry_count = 20` from the source. -/
def retry_count : Nat := 20

/-- `number_of_buckets = math.ceil(len(df) / maximum_batch_size)`. -/
def number_of_buckets (l : Nat) : Nat :=
  (l + maximum_batch_size - 1) / maximum_batch_size

/-- State of the inner `for i in range(retry_count)` loop for one
partition: the embedding vectors appended so far by this partition,
the number of `sleep(throttling_interval)` pauses, the number of
`sleep(5)` back-off pauses, and the `success` flag. -/
structure BatchAttemptState (E : Type) where
  embeddings : List E
  throttle_sleeps : Nat
  backoff_sleeps : Nat
  mk_success : Bool

/-- One iteration of the retry loop.  `provider p i` is the outcome of
`openai.Embedding.create` on partition `p` at attempt `i`: `some vecs`
when the call returns, `none` when it raises.  On return the code extends
`embeddings`, sleeps the throttling interval and sets `success = True`;
on an exception it sleeps 5.  Note the loop body has no `break`: the flag
is set but the loop keeps running. -/
def attemptStep (provider : List T → Nat → Option (List E)) (p : List T)
    (st : BatchAttemptState E) (i : Nat) : BatchAttemptState E :=
  match provider p i with
  | some vecs =>
      ⟨st.embeddings ++ vecs, st.throttle_sleeps + 1, st.backoff_sleeps, true⟩
  | none =>
      ⟨st.embeddings, st.throttle_sleeps, st.backoff_sleeps + 1, st.mk_success⟩

/-- The whole `for i in range(retry_count)` loop for one partition,
starting from `success = False` and nothing appended by this partition. -/
def processBatch (provider : List T → Nat → Option (List E)) (p : List T) :
    BatchAttemptState E :=
  (List.range retry_count).foldl (attemptStep provider p) ⟨[], 0, 0, false⟩

/-- Accumulated observable state of the outer `for partition in partitions`
loop: the `embeddings` list and the two sleep counters. -/
structure BatcherState (E : Type) where
  embeddings : List E
  throttle_sleeps : Nat
  backoff_sleeps : Nat

/-- The outer loop over partitions.  After the retry loop, `if not
success:` raises `Exception("Unable to generate embeddings (see previous
error output for more information.)")`, which aborts the whole call. -/
def runBatches (provider : List T → Nat → Option (List E)) :
    BatcherState E → List (List T) → Except String (BatcherState E)
  | acc, [] => Except.ok acc
  | acc, p :: ps =>
    let r := processBatch provider p
    if r.mk_success then
      runBatches provider
        ⟨acc.embeddings ++ r.embeddings,
         acc.throttle_sleeps + r.throttle_sleeps,
         acc.backoff_sleeps + r.backoff_sleeps⟩ ps
    else
      Except.error "Unable to generate embeddings (see previous error output for more information.)"

/-- A pandas dataframe as used by the notebook: the `text` column, plus
the embeddings column once (if ever) it is assigned. -/
structure PdDataFrame (T E : Type) where
  texts : List T
  embeddingsColumn : Option (List E)

/-- The local variables of `get_dataframe_with_aoai_embeddings` (its
parameters and every name assigned in its body). -/
def aoaiLocals : List String :=
  ["self", "dataset_name", "embedding_model_deployment_name",
   "text_column_name", "embeddings_column_name", "model_name", "df",
   "maximum_batch_size", "throttling_interval", "retry_count",
   "number_of_buckets", "partitions", "embeddings", "request_times",
   "start", "partition", "success", "i", "request_start",
   "text_embedding_response", "e", "request_end", "end"]

/-- `SampleCsvDatasets.get_dataframe_with_aoai_embeddings`.
`np.array_split(df, 0)` (empty dataframe) raises
`ValueError: number sections must be larger than 0.`.  After the loop the
source executes `df[text_embeddings_column_name] == embeddings`: the
identifier `text_embeddings_column_name` is neither a local (the parameter
is `embeddings_column_name`) nor a notebook global, so the line raises
`NameError`; and even were it resolvable, `==` is an equality test, not an
assignment, so `df` would still be returned unchanged. -/
def get_dataframe_with_aoai_embeddings
    (provider : List T → Nat → Option (List E)) (df : PdDataFrame T E) :
    Except String (PdDataFrame T E) :=
  if number_of_buckets df.texts.length = 0 then
    Except.error "ValueError: number sections must be larger than 0."
  else
    match runBatches provider ⟨[], 0, 0⟩
        (arraySplit df.texts (number_of_buckets df.texts.length)) with
    | Except.error msg => Except.error msg
    | Except.ok _ =>
      if resolvesName aoaiLocals "text_embeddings_column_name" then
        Except.ok df
      else
        Except.error "NameError: name text_embeddings_column_name is not defined"

/-! ## `SampleCsvDatasets.get_dataframe` -/

/-- The local variables of `get_dataframe` (its parameters; nothing is
assigned in its body). -/
def getDataframeLocals : List String :=
  ["self", "dataset_name", "add_aoai_embeddings"]

/-- `SampleCsvDatasets.get_dataframe`: its body is
`return self._values[name]`.  The identifier `name` is not a local
(`self`, `dataset_name`, `add_aoai_embeddings`) and is not bound at
notebook global scope (the loop variable `name` of `__init__` is local to
`__init__`), so the body raises `NameError` before any dictionary lookup;
the then-branch below is dead code (no key is available to look up). -/
def get_dataframe (selfValues : List (String × DF)) (dataset_name : String) :
    Except String DF :=
  if resolvesName getDataframeLocals "name" then
    Except.error "unreachable: name does not resolve"
  else
    Except.error "NameError: name name is not defined"

/-! ## `create_index` -/

/-- An Elasticsearch index: its mapping `properties` (field name to type
descriptor) and the documents it holds. -/
structure ESIndex where
  mapping : List (String × String)
  docs : List String
deriving DecidableEq

/-- The cluster: an association list from index name to index. -/
abbrev ESCluster := List (String × ESIndex)

/-- `elastic_client.indices.delete(index=..., ignore_unavailable=...)`:
with the flag set, deleting an absent index is a no-op; without it, it is
an `index_not_found_exception`. -/
def indices_delete (cluster : ESCluster) (index : String)
    (ignore_unavailable : Bool) : Except String ESCluster :=
  if (cluster.filter fun e => e.1 == index).isEmpty && !ignore_unavailable then
    Except.error "index_not_found_exception"
  else
    Except.ok (cluster.filter fun e => !(e.1 == index))

/-- `elastic_client.indices.create(index=..., mappings=...)`: fails if the
index already exists, otherwise creates it empty with the given mapping. -/
def indices_create (cluster : ESCluster) (index : String)
    (properties : List (String × String)) : Except String ESCluster :=
  if (cluster.filter fun e => e.1 == index).isEmpty then
    Except.ok (cluster ++ [(index, ⟨properties, []⟩)])
  else
    Except.error "resource_already_exists_exception"

/-- `create_index(elastic_client, index_name, **properties)`: delete any
previous index of that name with `ignore_unavailable=True`, then create it
with `mappings = {"properties": properties}`. -/
def create_index (cluster : ESCluster) (index_name : String)
    (properties : List (String × String)) : Except String ESCluster :=
  match indices_delete cluster index_name true with
  | Except.error msg => Except.error msg
  | Except.ok cleaned => indices_create cleaned index_name properties

/-! ## `index_data` -/

/-- One element of a bulk `operations` list: either the action line
`{"index": {"_index": index_name}}` or a document row. -/
inductive BulkOp (R : Type) where
  | action (index_name : String)
  | source (row : R)
deriving DecidableEq

/-- `max_operations_chunk_size = 10000` from the source. -/
def max_operations_chunk_size : Nat := 10000

/-- The loop state of `index_data`: `operations_chunks`, the current
`chunk`, and `chunk_size` (number of rows, not operations, in the current
chunk). -/
structure IndexDataState (R : Type) where
  operations_chunks : List (List (BulkOp R))
  chunk : List (BulkOp R)
  chunk_size : Nat

/-- One iteration of `for row in dataset_reader`.  When the chunk is full
the code appends it to `operations_chunks` and resets `chunk` and
`chunk_size` — without appending the current row anywhere: the row that
triggered the flush is dropped. -/
def index_data_step (index_name : String) (st : IndexDataState R) (row : R) :
    IndexDataState R :=
  if st.chunk_size < max_operations_chunk_size then
    ⟨st.operations_chunks,
     st.chunk ++ [BulkOp.action index_name, BulkOp.source row],
     st.chunk_size + 1⟩
  else
    ⟨st.operations_chunks ++ [st.chunk], [], 0⟩

/-- The chunking phase of `index_data`: fold the rows, then append the
trailing non-empty chunk. -/
def index_data_chunks (index_name : String) (rows : List R) :
    List (List (BulkOp R)) :=
  let st := rows.foldl (index_data_step index_name) ⟨[], [], 0⟩
  if st.chunk.length > 0 then st.operations_chunks ++ [st.chunk]
  else st.operations_chunks

/-- One call to `elastic_client.bulk(index=..., operations=..., refresh=True)`. -/
structure BulkRequest (R : Type) where
  index : String
  operations : List (BulkOp R)
  refresh : Bool

/-- `index_data(elastic_client, dataset_reader, index_name)`: the list of
bulk requests issued, one per chunk, each with `refresh=True`. -/
def index_data (index_name : String) (rows : List R) : List (BulkRequest R) :=
  (index_data_chunks index_name rows).map fun c => ⟨index_name, c, true⟩

/-- The document rows carried by a chunk (its `source` entries, in order). -/
def chunkDocs : List (BulkOp R) → List R
  | [] => []
  | BulkOp.action _ :: rest => chunkDocs rest
  | BulkOp.source r :: rest => r :: chunkDocs rest

/-- The operations contributed by a run of rows that all land in the same
chunk: an action line followed by the row, for each row. -/
def rowOps (index_name : String) : List R → List (BulkOp R)
  | [] => []
  | r :: rs => BulkOp.action index_name :: BulkOp.source r :: rowOps index_name rs

/-- Reference chunking: what the rows of the successive chunks actually
are, given the flush-drops-a-row behaviour: a full chunk of 10000 rows,
then one dropped row, then the rest. -/
def chunkRowsSpec (rows : List R) : List (List R) :=
  if rows.length ≤ max_operations_chunk_size then
    (if rows.length = 0 then [] else [rows])
  else
    rows.take max_operations_chunk_size ::
      chunkRowsSpec (rows.drop (max_operations_chunk_size + 1))
termination_by rows.length
decreasing_by
  simp only [List.length_drop, max_operations_chunk_size] at *
  omega

/-- Row counts of the successive chunks, as a function of the input
length alone. -/
def chunkLenSpec (l : Nat) : List Nat :=
  if l ≤ max_operations_chunk_size then (if l = 0 then [] else [l])
  else max_operations_chunk_size :: chunkLenSpec (l - (max_operations_chunk_size + 1))
termination_by l
decreasing_by
  simp only [max_operations_chunk_size] at *
  omega

/-! ## `chat_with_my_data` -/

/-- Python truthiness for the optional string parameters: `None` and the
empty string are falsy. -/
def pyTruthy : Option String → Bool
  | none => false
  | some s => !(s == "")

/-- The local variables of `chat_with_my_data` (parameters and every name
assigned in its body). -/
def chatLocals : List String :=
  ["chat_query", "aoai_deployment_name", "elasticsearch_endpoint",
   "elasticsearch_api_key", "index_name", "embedding_config",
   "elasticsearch_embedding_model", "aoai_embedding_model",
   "aoai_embedding_key", "aoai_embedding_endpoint", "query_type",
   "completion"]

/-- The `parameters` block of the data source attached to the chat
request, restricted to the fields the mode-selection claims are about. -/
structure DataSourceParams where
  queryType : String
  embeddingModelId : Option String
  embeddingKey : Option String
deriving DecidableEq

/-- `chat_with_my_data`, mode-selection part.  The source computes
`aoai_embedding_endpoint = None if not aoai_embedding_model and not
aoai_embedding_key else f"{openapi.api_base}/openai/deployments/..."`:
whenever either optional Azure OpenAI parameter is truthy, the f-string is
evaluated, and its first step resolves the identifier `openapi`, which is
neither a local nor a notebook global (the client module is bound as
`openai`), so the call raises `NameError` there.  Otherwise
`query_type = "vector" if (aoai_embedding_endpoint and aoai_embedding_key)
or elasticsearch_embedding_model else "simple"`. -/
def chat_with_my_data (elasticsearch_embedding_model : Option String)
    (aoai_embedding_model : Option String) (aoai_embedding_key : Option String) :
    Except String DataSourceParams :=
  if !pyTruthy aoai_embedding_model && !pyTruthy aoai_embedding_key then
    let aoai_embedding_endpoint : Option String := none
    let query_type :=
      if (pyTruthy aoai_embedding_endpoint && pyTruthy aoai_embedding_key)
          || pyTruthy elasticsearch_embedding_model then "vector" else "simple"
    Except.ok ⟨query_type, elasticsearch_embedding_model, aoai_embedding_key⟩
  else
    if resolvesName chatLocals "openapi" then
      Except.error "unreachable: openapi does not resolve"
    else
      Except.error "NameError: name openapi is not defined"

/-! ## Lemmas about `np.array_split` -/

/-- Sum of `m` balanced section sizes: `q + 1` for indices below `r`,
`q` for the rest. -/
theorem sum_range_ite (m r q : Nat) :
    ((List.range m).map fun i => if i < r then q + 1 else q).sum = q * m + min m r := by
  induction m with
  | zero => simp
  | succ m ih =>
    rw [List.range_succ, List.map_append, List.sum_append, ih]
    simp only [List.map_cons, List.map_nil, List.sum_cons, List.sum_nil, Nat.mul_succ]
    by_cases h : m < r
    · rw [if_pos h]
      have h1 : min m r = m := by omega
      have h2 : min (m + 1) r = m + 1 := by omega
      rw [h1, h2]
      omega
    · rw [if_neg h]
      have h1 : min m r = r := by omega
      have h2 : min (m + 1) r = r := by omega
      rw [h1, h2]
      omega

/-- The balanced section sizes sum to the total length. -/
theorem arraySplitSizes_sum (l n : Nat) (hn : 0 < n) :
    (arraySplitSizes l n).sum = l := by
  unfold arraySplitSizes
  rw [sum_range_ite]
  have h1 : l % n < n := Nat.mod_lt l hn
  have h2 : min n (l % n) = l % n := by omega
  rw [h2]
  exact Nat.div_add_mod' l n

/-- Splitting by sizes and flattening recovers a prefix of the input. -/
theorem splitBySizes_flatten (ss : List Nat) :
    ∀ (xs : List α), (splitBySizes ss xs).flatten = xs.take ss.sum := by
  induction ss with
  | nil => intro xs; simp [splitBySizes]
  | cons s ss ih =>
    intro xs
    rw [splitBySizes, List.flatten_cons, ih, List.sum_cons, List.take_add]

/-- `np.array_split` is a partition: flattening the sections gives back
the input, for any positive section count. -/
theorem arraySplit_flatten (xs : List α) (n : Nat) (hn : 0 < n) :
    (arraySplit xs n).flatten = xs := by
  unfold arraySplit
  rw [splitBySizes_flatten, arraySplitSizes_sum _ _ hn, List.take_length]

/-- Every section produced by `splitBySizes` is bounded by one of the
requested sizes. -/
theorem length_le_of_mem_splitBySizes {p : List α} :
    ∀ (ss : List Nat) (xs : List α), p ∈ splitBySizes ss xs → ∃ s ∈ ss, p.length ≤ s := by
  intro ss
  induction ss with
  | nil => intro xs h; simp [splitBySizes] at h
  | cons s ss ih =>
    intro xs h
    rw [splitBySizes, List.mem_cons] at h
    rcases h with h | h
    · exact ⟨s, List.mem_cons_self s ss, by rw [h, List.length_take]; omega⟩
    · obtain ⟨t, ht, hle⟩ := ih _ h
      exact ⟨t, List.mem_cons_of_mem s ht, hle⟩

/-- With `n = ceil(l / 16)` sections, every balanced section size is at
most 16. -/
theorem arraySplitSizes_le (l : Nat) (hl : 0 < l) :
    ∀ s ∈ arraySplitSizes l (number_of_buckets l), s ≤ maximum_batch_size := by
  intro s hs
  have hn : 0 < number_of_buckets l := by
    simp only [number_of_buckets, maximum_batch_size]; omega
  have h16 : l ≤ 16 * number_of_buckets l := by
    simp only [number_of_buckets, maximum_batch_size]; omega
  unfold arraySplitSizes at hs
  rw [List.mem_map] at hs
  obtain ⟨i, hi, rfl⟩ := hs
  rw [List.mem_range] at hi
  by_cases hir : i < l % number_of_buckets l
  · rw [if_pos hir]
    have hne : l ≠ 16 * number_of_buckets l := by
      intro he
      have hmod := Nat.mul_mod_left 16 (number_of_buckets l)
      rw [← he] at hmod
      omega
    have hlt : l / number_of_buckets l < 16 :=
      (Nat.div_lt_iff_lt_mul hn).mpr (by omega)
    simp only [maximum_batch_size]
    exact hlt
  · rw [if_neg hir]
    have hlt : l / number_of_buckets l < 17 :=
      (Nat.div_lt_iff_lt_mul hn).mpr (by omega)
    simp only [maximum_batch_size]
    exact Nat.lt_succ_iff.mp hlt

/-! ## Lemmas about the retry loop -/

/-- If the provider fails on every attempt in `l`, the retry loop leaves
the `success` flag as it found it. -/
theorem attemptLoop_flag_of_allFail (provider : List T → Nat → Option (List E)) (p : List T) :
    ∀ (l : List Nat) (st : BatchAttemptState E), (∀ i ∈ l, provider p i = none) →
      (l.foldl (attemptStep provider p) st).mk_success = st.mk_success := by
  intro l
  induction l with
  | nil => intro st _; rfl
  | cons i is ih =>
    intro st h
    rw [List.foldl_cons]
    have hstep : attemptStep provider p st i =
        ⟨st.embeddings, st.throttle_sleeps, st.backoff_sleeps + 1, st.mk_success⟩ := by
      unfold attemptStep
      rw [h i (List.mem_cons_self i is)]
    rw [hstep, ih _ (fun j hj => h j (List.mem_cons_of_mem i hj))]

/-- A batch on which the provider fails all 20 attempts ends with
`success = False`. -/
theorem processBatch_flag_of_allFail (provider : List T → Nat → Option (List E)) (p : List T)
    (h : ∀ a, a < retry_count → provider p a = none) :
    (processBatch provider p).mk_success = false := by
  unfold processBatch
  exact attemptLoop_flag_of_allFail provider p (List.range retry_count) _
    (fun i hi => h i (List.mem_range.mp hi))

/-- If some batch of the partition list fails all attempts, the outer loop
raises the fatal exception, whatever was accumulated before. -/
theorem runBatches_fatal (provider : List T → Nat → Option (List E)) :
    ∀ (ps : List (List T)) (acc : BatcherState E) (p : List T), p ∈ ps →
      (∀ a, a < retry_count → provider p a = none) →
      runBatches provider acc ps =
        Except.error "Unable to generate embeddings (see previous error output for more information.)" := by
  intro ps
  induction ps with
  | nil => intro acc p hp _; simp at hp
  | cons q qs ih =>
    intro acc p hp hfail
    rw [List.mem_cons] at hp
    by_cases hq : (processBatch provider q).mk_success = true
    · have hpq : p ∈ qs := by
        rcases hp with rfl | hmem
        · rw [processBatch_flag_of_allFail provider p hfail] at hq; simp at hq
        · exact hmem
      simp only [runBatches, hq, if_true]
      exact ih _ p hpq hfail
    · rw [Bool.not_eq_true] at hq
      simp only [runBatches, hq, Bool.false_eq_true, if_false]

/-! ## Claim theorems -/

/-- C1: the claim says the batcher accumulates exactly one embedding per
input text.  It does not: the retry loop has no `break`, so with a single
input text and a provider that succeeds on every attempt (returning one
vector per text of the batch), the loop runs all 20 attempts and appends
the batch embeddings once per successful attempt — 20 vectors are
accumulated for 1 text. -/
theorem batcher_duplicates_embeddings_per_attempt :
    (runBatches (fun (p : List String) (_ : Nat) => some (p.map fun _ => (0 : Nat)))
        ⟨[], 0, 0⟩ (arraySplit ["t"] (number_of_buckets (["t"] : List String).length))).map
      (fun st => st.embeddings.length) = Except.ok 20 ∧ (20 : Nat) ≠ 1 :=
  ⟨rfl, by decide⟩

/-- C3: the claim says exactly one 0.5-unit throttling pause per
successful batch.  In fact `sleep(throttling_interval)` runs once per
successful attempt, and without a `break` every attempt of the batch is
made: a single batch whose every attempt succeeds pauses 20 times, not
once. -/
theorem batcher_throttles_per_attempt :
    (runBatches (fun (p : List String) (_ : Nat) => some (p.map fun _ => (0 : Nat)))
        ⟨[], 0, 0⟩ (arraySplit ["t"] (number_of_buckets (["t"] : List String).length))).map
      (fun st => st.throttle_sleeps) = Except.ok 20 ∧ (20 : Nat) ≠ 1 :=
  ⟨rfl, by decide⟩

/-- C2: if the provider fails on every one of the 20 attempts for some
batch of the partition, the batcher raises the fatal
`Unable to generate embeddings` exception, and the caller receives no
embeddings for any row (the error carries no partial result). -/
theorem batcher_fatal_on_exhausted_retries {E : Type}
    (provider : List String → Nat → Option (List E)) (df : PdDataFrame String E)
    (p : List String)
    (hp : p ∈ arraySplit df.texts (number_of_buckets df.texts.length))
    (hfail : ∀ a, a < retry_count → provider p a = none) :
    get_dataframe_with_aoai_embeddings provider df =
      Except.error "Unable to generate embeddings (see previous error output for more information.)" := by
  have hnb : ¬ number_of_buckets df.texts.length = 0 := by
    intro h0
    rw [h0] at hp
    simp [arraySplit, arraySplitSizes, splitBySizes] at hp
  unfold get_dataframe_with_aoai_embeddings
  rw [if_neg hnb, runBatches_fatal provider _ _ p hp hfail]

/-- Witness for C2: a one-text dataframe with a provider that raises on
every call. -/
theorem batcher_fatal_on_exhausted_retries_witness :
    ((["a"] : List String) ∈ arraySplit (PdDataFrame.texts (⟨["a"], none⟩ : PdDataFrame String Nat))
        (number_of_buckets (PdDataFrame.texts (⟨["a"], none⟩ : PdDataFrame String Nat)).length)) ∧
    get_dataframe_with_aoai_embeddings
        (fun (_ : List String) (_ : Nat) => (none : Option (List Nat)))
        (⟨["a"], none⟩ : PdDataFrame String Nat) =
      Except.error "Unable to generate embeddings (see previous error output for more information.)" :=
  ⟨by decide, batcher_fatal_on_exhausted_retries _ _ ["a"] (by decide) (fun _ _ => rfl)⟩

/-- C4 counterexample: on 17 input rows the partition step makes
`ceil(17/16) = 2` sections, and `np.array_split` balances them as sizes
9 and 8 — the first (non-final) batch has 9 items, not 16. -/
theorem partition_nonfinal_batch_not_16 :
    (arraySplit (List.range 17) (number_of_buckets (List.range 17).length)).map List.length
      = [9, 8] ∧ (9 : Nat) ≠ 16 :=
  ⟨by decide, by decide⟩

/-- C4 amended: for every non-empty input the partition step preserves the
input order (flattening the batches gives back the input) and every batch
has at most 16 items; but sizes are balanced, so non-final batches may be
shorter than 16. -/
theorem partition_order_preserving_and_bounded (texts : List Nat) (h : texts ≠ []) :
    (arraySplit texts (number_of_buckets texts.length)).flatten = texts ∧
    ∀ p ∈ arraySplit texts (number_of_buckets texts.length),
      p.length ≤ maximum_batch_size := by
  have hl : 0 < texts.length := List.length_pos.mpr h
  have hn : 0 < number_of_buckets texts.length := by
    simp only [number_of_buckets, maximum_batch_size]; omega
  refine ⟨arraySplit_flatten _ _ hn, ?_⟩
  intro p hp
  unfold arraySplit at hp
  obtain ⟨s, hs, hle⟩ := length_le_of_mem_splitBySizes _ _ hp
  exact le_trans hle (arraySplitSizes_le texts.length hl s hs)

/-- Witness for the amended C4, at 17 input rows. -/
theorem partition_order_preserving_and_bounded_witness :
    (List.range 17 ≠ []) ∧
    ((arraySplit (List.range 17) (number_of_buckets (List.range 17).length)).flatten
        = List.range 17 ∧
     ∀ p ∈ arraySplit (List.range 17) (number_of_buckets (List.range 17).length),
       p.length ≤ maximum_batch_size) :=
  ⟨by decide, partition_order_preserving_and_bounded (List.range 17) (by decide)⟩

/-! ## Lemmas about `index_data` -/

/-- Extracting the documents back out of the operations of one chunk. -/
theorem chunkDocs_rowOps (ix : String) :
    ∀ (rows : List R), chunkDocs (rowOps ix rows) = rows := by
  intro rows
  induction rows with
  | nil => rfl
  | cons r rs ih => simp [rowOps, chunkDocs, ih]

/-- While the current chunk has room for all remaining rows, the fold just
appends action/source pairs and counts rows. -/
theorem foldl_fill (ix : String) :
    ∀ (rows : List R) (st : IndexDataState R),
      st.chunk_size + rows.length ≤ max_operations_chunk_size →
      rows.foldl (index_data_step ix) st =
        ⟨st.operations_chunks, st.chunk ++ rowOps ix rows, st.chunk_size + rows.length⟩ := by
  intro rows
  induction rows with
  | nil => intro st _; simp [rowOps]
  | cons r rs ih =>
    intro st h
    have hlt : st.chunk_size < max_operations_chunk_size := by
      simp only [List.length_cons] at h; omega
    rw [List.foldl_cons]
    simp only [index_data_step, if_pos hlt]
    rw [ih ⟨st.operations_chunks, st.chunk ++ [BulkOp.action ix, BulkOp.source r],
          st.chunk_size + 1⟩
        (by simp only [List.length_cons] at h ⊢; omega)]
    simp only [rowOps, List.length_cons, IndexDataState.mk.injEq, List.append_assoc,
      List.cons_append, List.nil_append]
    exact ⟨trivial, trivial, by omega⟩

/-- Chunks already flushed to `operations_chunks` are untouched by the
rest of the fold: folding from `⟨cs, c, s⟩` gives the same result as from
`⟨[], c, s⟩` with `cs` prepended. -/
theorem foldl_chunks_accum (ix : String) :
    ∀ (rows : List R) (cs : List (List (BulkOp R))) (c : List (BulkOp R)) (s : Nat),
      ∃ cs₀ c₀ s₀,
        rows.foldl (index_data_step ix) ⟨[], c, s⟩ = ⟨cs₀, c₀, s₀⟩ ∧
        rows.foldl (index_data_step ix) ⟨cs, c, s⟩ = ⟨cs ++ cs₀, c₀, s₀⟩ := by
  intro rows
  induction rows with
  | nil => intro cs c s; exact ⟨[], c, s, rfl, by simp⟩
  | cons r rs ih =>
    intro cs c s
    by_cases h : s < max_operations_chunk_size
    · rw [List.foldl_cons, List.foldl_cons]
      simp only [index_data_step, if_pos h]
      exact ih cs (c ++ [BulkOp.action ix, BulkOp.source r]) (s + 1)
    · rw [List.foldl_cons, List.foldl_cons]
      simp only [index_data_step, if_neg h, List.nil_append]
      obtain ⟨cs₀, c₀, s₀, h1, h2⟩ := ih [c] ([] : List (BulkOp R)) 0
      obtain ⟨cs₁, c₁, s₁, h3, h4⟩ := ih (cs ++ [c]) ([] : List (BulkOp R)) 0
      have heq := h1.symm.trans h3
      simp only [IndexDataState.mk.injEq] at heq
      obtain ⟨e1, e2, e3⟩ := heq
      subst e1; subst e2; subst e3
      exact ⟨[c] ++ cs₀, c₀, s₀, h2, by rw [h4, List.append_assoc]⟩

/-- The chunking phase of `index_data` agrees with the reference
chunking `chunkRowsSpec` once each chunk is mapped to its document rows
(bounded-length version for induction). -/
theorem index_data_chunks_spec_aux (ix : String) :
    ∀ (n : Nat) (rows : List R), rows.length ≤ n →
      (index_data_chunks ix rows).map chunkDocs = chunkRowsSpec rows := by
  intro n
  induction n with
  | zero =>
    intro rows h
    have h0 : rows = [] := by
      cases rows with
      | nil => rfl
      | cons a as => simp at h
    subst h0
    rw [chunkRowsSpec]
    simp [index_data_chunks, max_operations_chunk_size]
  | succ n ih =>
    intro rows h
    by_cases hle : rows.length ≤ max_operations_chunk_size
    · cases rows with
      | nil =>
        rw [chunkRowsSpec]
        simp [index_data_chunks, max_operations_chunk_size]
      | cons a as =>
        have hfill := foldl_fill ix (a :: as) ⟨[], [], 0⟩ (by simpa using hle)
        rw [chunkRowsSpec, if_pos hle, if_neg (by simp)]
        simp only [index_data_chunks]
        rw [hfill]
        simp only [List.nil_append, Nat.zero_add]
        rw [if_pos (by simp [rowOps])]
        simp [chunkDocs_rowOps]
    · have hlen : max_operations_chunk_size < rows.length := by omega
      have htake : (rows.take max_operations_chunk_size).length = max_operations_chunk_size := by
        rw [List.length_take]; omega
      obtain ⟨cs₀, c₀, s₀, h1, h2⟩ :=
        foldl_chunks_accum ix (rows.drop (max_operations_chunk_size + 1))
          [rowOps ix (rows.take max_operations_chunk_size)] ([] : List (BulkOp R)) 0
      have hfold : rows.foldl (index_data_step ix) ⟨[], [], 0⟩ =
          ⟨[rowOps ix (rows.take max_operations_chunk_size)] ++ cs₀, c₀, s₀⟩ := by
        conv_lhs => rw [← List.take_append_drop max_operations_chunk_size rows]
        rw [List.foldl_append,
          foldl_fill ix _ ⟨[], [], 0⟩ (by simp [htake]),
          List.drop_eq_getElem_cons hlen, List.foldl_cons]
        simp only [List.nil_append, Nat.zero_add, htake]
        simp only [index_data_step, if_neg (lt_irrefl max_operations_chunk_size),
          List.nil_append]
        exact h2
      have hchunks : index_data_chunks ix rows =
          rowOps ix (rows.take max_operations_chunk_size) ::
            index_data_chunks ix (rows.drop (max_operations_chunk_size + 1)) := by
        simp only [index_data_chunks]
        rw [hfold, h1]
        by_cases hc : c₀.length > 0
        · rw [if_pos hc, if_pos hc]; simp
        · rw [if_neg hc, if_neg hc]; simp
      rw [hchunks, List.map_cons, chunkDocs_rowOps,
        ih _ (by simp only [List.length_drop]; simp only [max_operations_chunk_size] at *; omega)]
      conv_rhs => rw [chunkRowsSpec]
      rw [if_neg (by omega)]

/-- The chunking phase of `index_data` agrees with the reference chunking
on document rows. -/
theorem index_data_chunks_spec (ix : String) (rows : List R) :
    (index_data_chunks ix rows).map chunkDocs = chunkRowsSpec rows :=
  index_data_chunks_spec_aux ix rows.length rows (le_refl _)

/-- The rows carried by the successive bulk requests of `index_data` are
the chunks of the reference chunking. -/
theorem index_data_docs (ix : String) (rows : List R) :
    ((index_data ix rows).map fun r => chunkDocs r.operations) = chunkRowsSpec rows := by
  rw [index_data, List.map_map]
  exact index_data_chunks_spec ix rows

/-- The chunk row-counts depend only on the number of input rows
(bounded-length version for induction). -/
theorem chunkRowsSpec_lengths_aux :
    ∀ (n : Nat) (rows : List R), rows.length ≤ n →
      (chunkRowsSpec rows).map List.length = chunkLenSpec rows.length := by
  intro n
  induction n with
  | zero =>
    intro rows h
    have h0 : rows = [] := by
      cases rows with
      | nil => rfl
      | cons a as => simp at h
    subst h0
    rw [chunkRowsSpec, chunkLenSpec]
    simp
  | succ n ih =>
    intro rows h
    rw [chunkRowsSpec, chunkLenSpec]
    by_cases hle : rows.length ≤ max_operations_chunk_size
    · rw [if_pos hle, if_pos hle]
      by_cases h0 : rows.length = 0
      · rw [if_pos h0, if_pos h0]; simp
      · rw [if_neg h0, if_neg h0]; simp
    · rw [if_neg hle, if_neg hle, List.map_cons,
        ih _ (by simp only [List.length_drop]; simp only [max_operations_chunk_size] at *; omega)]
      rw [List.length_take, List.length_drop]
      congr 1
      omega

/-- The chunk row-counts depend only on the number of input rows. -/
theorem chunkRowsSpec_lengths (rows : List R) :
    (chunkRowsSpec rows).map List.length = chunkLenSpec rows.length :=
  chunkRowsSpec_lengths_aux rows.length rows (le_refl _)

/-- C5: the claim says 25000 rows produce 3 bulk requests of 10000, 10000
and 5000 rows.  The code does issue exactly 3 requests, but the row that
triggers each chunk flush is dropped, so the requests carry 10000, 10000
and 4998 rows (rows at positions 10000 and 20001 are lost), not 5000. -/
theorem bulk_load_25000_rows :
    ((index_data "idx" (List.range 25000)).map fun r => (chunkDocs r.operations).length)
      = [10000, 10000, 4998] ∧ (4998 : Nat) ≠ 5000 := by
  constructor
  · have h2 := chunkRowsSpec_lengths (List.range 25000)
    rw [List.length_range] at h2
    calc ((index_data "idx" (List.range 25000)).map fun r => (chunkDocs r.operations).length)
        = ((index_data "idx" (List.range 25000)).map fun r => chunkDocs r.operations).map
            List.length := by rw [List.map_map]; rfl
      _ = (chunkRowsSpec (List.range 25000)).map List.length := by
            rw [index_data_docs]
      _ = chunkLenSpec 25000 := h2
      _ = [10000, 10000, 4998] := by
            rw [chunkLenSpec]
            simp only [max_operations_chunk_size]
            norm_num
            rw [chunkLenSpec]
            simp only [max_operations_chunk_size]
            norm_num
            rw [chunkLenSpec]
            simp only [max_operations_chunk_size]
            norm_num
  · decide

/-- C6: the claim says every input row is submitted.  On 10001 input rows
the 10001st row (index 10000) hits the full-chunk branch, which flushes
the chunk and resets it without appending that row anywhere: the single
bulk request carries only the first 10000 rows, and row 10000 is never
indexed. -/
theorem bulk_load_drops_boundary_row :
    ((index_data "idx" (List.range 10001)).map fun r => chunkDocs r.operations).flatten
        = List.range 10000 ∧
    (10000 : Nat) ∈ List.range 10001 ∧ (10000 : Nat) ∉ List.range 10000 := by
  refine ⟨?_, by simp, by simp⟩
  rw [index_data_docs, chunkRowsSpec,
    if_neg (by rw [List.length_range]; simp [max_operations_chunk_size])]
  have hdrop : (List.range 10001).drop (max_operations_chunk_size + 1) = [] := by
    have h1 : max_operations_chunk_size + 1 = (List.range 10001).length := by
      rw [List.length_range]
      simp [max_operations_chunk_size]
    rw [h1]
    exact List.drop_length _
  rw [hdrop, chunkRowsSpec]
  simp only [List.length_nil, List.length_eq_zero, Nat.zero_le, if_pos, if_true]
  rw [List.take_range]
  simp [max_operations_chunk_size]

/-! ## Lemmas about `create_index` -/

/-- After removing every entry with key `n`, no entry with key `n` is
left. -/
theorem filter_key_ne_then_eq (l : ESCluster) (n : String) :
    ((l.filter fun e => !(e.1 == n)).filter fun e => e.1 == n) = [] := by
  induction l with
  | nil => rfl
  | cons e es ih => by_cases h : e.1 == n <;> simp [List.filter_cons, h, ih]

/-- Removing every entry with key `n` is idempotent. -/
theorem filter_key_ne_idem (l : ESCluster) (n : String) :
    ((l.filter fun e => !(e.1 == n)).filter fun e => !(e.1 == n))
      = l.filter fun e => !(e.1 == n) := by
  induction l with
  | nil => rfl
  | cons e es ih => by_cases h : e.1 == n <;> simp [List.filter_cons, h, ih]

/-- With `ignore_unavailable=True` the delete never errors and removes
every index of that name (a no-op when none exists). -/
theorem indices_delete_ok (c : ESCluster) (n : String) :
    indices_delete c n true = Except.ok (c.filter fun e => !(e.1 == n)) := by
  unfold indices_delete
  simp

/-! ## Claim theorems (continued) -/

/-- C8: for every prior cluster state, `create_index` succeeds (the delete
treats a missing index as a no-op), and the resulting state has exactly
one index of the given name, carrying the supplied mapping and no
documents (prior contents discarded).  Calling it again with the same name
and mapping reproduces exactly the same state. -/
theorem create_index_reset (cluster : ESCluster) (n : String)
    (m : List (String × String)) :
    ∃ s, create_index cluster n m = Except.ok s ∧
      create_index s n m = Except.ok s ∧
      (s.filter fun e => e.1 == n) = [(n, ⟨m, []⟩)] := by
  refine ⟨(cluster.filter fun e => !(e.1 == n)) ++ [(n, ⟨m, []⟩)], ?_, ?_, ?_⟩
  · unfold create_index
    rw [indices_delete_ok]
    show indices_create (cluster.filter fun e => !(e.1 == n)) n m = _
    unfold indices_create
    rw [filter_key_ne_then_eq]
    simp
  · unfold create_index
    rw [indices_delete_ok]
    have hclean : (((cluster.filter fun e => !(e.1 == n)) ++ [(n, (⟨m, []⟩ : ESIndex))]).filter
        fun e => !(e.1 == n)) = cluster.filter fun e => !(e.1 == n) := by
      rw [List.filter_append, filter_key_ne_idem]
      simp
    rw [hclean]
    show indices_create (cluster.filter fun e => !(e.1 == n)) n m = _
    unfold indices_create
    rw [filter_key_ne_then_eq]
    simp
  · rw [List.filter_append, filter_key_ne_then_eq]
    simp

/-- C7: with no embedding parameters the query mode is `"simple"`; with an
Elasticsearch embedding model identifier it is `"vector"`; but with the
Azure OpenAI embedding parameters supplied (as cell 41 of the notebook
does), building the embedding endpoint evaluates
`f"{openapi.api_base}/..."` and raises `NameError` (`openapi` is a typo
for `openai`), so no query mode is ever selected on that path. -/
theorem chat_query_mode :
    chat_with_my_data none none none = Except.ok ⟨"simple", none, none⟩ ∧
    chat_with_my_data (some "sentence-transformers__msmarco-minilm-l-12-v3") none none
      = Except.ok ⟨"vector", some "sentence-transformers__msmarco-minilm-l-12-v3", none⟩ ∧
    chat_with_my_data none (some "text-embedding-ada-002") (some "encoded-key")
      = Except.error "NameError: name openapi is not defined" :=
  ⟨rfl, rfl, rfl⟩

/-- C9: the claim says that after a run without fatal error the dataframe
carries the embeddings column.  In fact the function can never complete
without an error: an empty dataframe raises `ValueError` in
`np.array_split`, a fatally failing batch raises the retry-exhaustion
exception, and otherwise the final line
`df[text_embeddings_column_name] == embeddings` raises `NameError`
(undefined identifier; and being `==`, it would not assign even if the
name resolved) — so the embeddings column is never set. -/
theorem batcher_never_completes_without_error
    (provider : List String → Nat → Option (List Nat))
    (df : PdDataFrame String Nat) :
    ∃ msg, get_dataframe_with_aoai_embeddings provider df = Except.error msg := by
  unfold get_dataframe_with_aoai_embeddings
  by_cases h0 : number_of_buckets df.texts.length = 0
  · rw [if_pos h0]
    exact ⟨_, rfl⟩
  · rw [if_neg h0]
    cases hr : runBatches provider ⟨[], 0, 0⟩
        (arraySplit df.texts (number_of_buckets df.texts.length)) with
    | error msg => exact ⟨msg, rfl⟩
    | ok st => exact ⟨_, rfl⟩

/-- C10 counterexample: the claim says `get_dataframe` returns the
dataframe stored under the constructor's final loop name (`"msmarco"`).
At `dataset_name = "msmarco"` with the store holding that dataframe, the
call does not return it: the body `self._values[name]` raises `NameError`
(the loop variable `name` is local to `__init__`). -/
theorem get_dataframe_raises_not_returns :
    ¬ (get_dataframe [("msmarco", (0 : Nat))] "msmarco" = Except.ok 0) :=
  fun h => Except.noConfusion h

/-- C10 amended: `get_dataframe` does ignore its `dataset_name` argument
(the result is identical for every argument value), but it returns no
dataframe at all: the free identifier `name` in `self._values[name]` is
unbound at call time, so every call raises `NameError`. -/
theorem get_dataframe_ignores_argument_and_raises (values : List (String × Nat))
    (d d' : String) :
    get_dataframe values d = get_dataframe values d' ∧
    get_dataframe values d = Except.error "NameError: name name is not defined" :=
  ⟨rfl, rfl⟩
